import Mathlib

/-!
Shallow embedding of the car_tracker frontend (src/car_tracker/src/App.tsx and
src/car_tracker/src/components/MapComponent.tsx) and proofs about its three
non-trivial pieces: the coordinate fallback table, the map-initialization
geocode resolution with segment-marker interpolation, and the ELD duty grid.
JavaScript numbers are modelled as rationals, strings as Lean strings, and
the asynchronous effects as explicit outcome values fed to the pure handler
code that the component runs when a promise settles.
-/

namespace CarTracker

/-- A coordinate pair of rationals. In Leaflet order this is [lat, lng];
in the geocoding wire format it is [lng, lat]. -/
abbrev Coord := ℚ × ℚ

/-! ## CoordinateFallback — getDefaultCoordinates (MapComponent.tsx lines 121-145) -/

/-- Per-character lowering of a string, the model of the JavaScript
toLowerCase call on the ASCII city names involved. -/
def toLowerStr (s : String) : String :=
  ⟨s.data.map Char.toLower⟩

/-- Substring containment: strIncludes s sub is the JavaScript
s.includes(sub). -/
def strIncludes (s sub : String) : Bool :=
  s.data.tails.any (fun t => sub.data.isPrefixOf t)

/-- The fixed, ordered city table of getDefaultCoordinates
(MapComponent.tsx lines 122-133), in declaration order. -/
def cityCoords : List (String × Coord) :=
  [(("chicago"), (41.8781, -87.6298)),
   (("detroit"), (42.3314, -83.0458)),
   (("denver"), (39.7392, -104.9903)),
   (("los angeles"), (34.0522, -118.2437)),
   (("new york"), (40.7128, -74.006)),
   (("miami"), (25.7617, -80.1918)),
   (("houston"), (29.7604, -95.3698)),
   (("seattle"), (47.6062, -122.3321)),
   (("phoenix"), (33.4484, -112.074)),
   (("dallas"), (32.7767, -96.797))]

/-- The for-loop of getDefaultCoordinates (MapComponent.tsx lines 137-141):
scan the table in order, return the first entry whose key matches the
lowercased input under the two-sided includes test. -/
def findCity : List (String × Coord) → String → Option Coord
  | [], _ => none
  | (city, coords) :: rest, locationLower =>
    if strIncludes locationLower city || strIncludes city locationLower then
      some coords
    else
      findCity rest locationLower

/-- getDefaultCoordinates (MapComponent.tsx lines 121-145): table scan on the
lowercased input, defaulting to the center of the US. -/
def getDefaultCoordinates (location : String) : Coord :=
  match findCity cityCoords (toLowerStr location) with
  | some coords => coords
  | none => (39.8283, -98.5795)

/-! ## Map initialization — fetchCoordinates (MapComponent.tsx lines 72-118) -/

/-- Outcome of one geocode request as the per-location promise sees it:
either the fetch/json call rejected, or a parsed body whose feature list
carries [lng, lat] pairs (an absent features field is the empty list). -/
inductive GeocodeOutcome where
  | thrown
  | response (features : List Coord)
deriving DecidableEq

/-- Body of the per-location promise (MapComponent.tsx lines 85-91): a
non-empty feature list yields the first feature, swapped to [lat, lng];
otherwise the location falls back to getDefaultCoordinates. -/
def resolveLocation (features : List Coord) (location : String) : Coord :=
  match features with
  | coords :: _ => (coords.2, coords.1)
  | [] => getDefaultCoordinates location

/-- The coordinates state shape set by fetchCoordinates. -/
structure RouteCoordinates where
  current : Coord
  pickup : Coord
  dropoff : Coord
deriving DecidableEq

/-- fetchCoordinates (MapComponent.tsx lines 73-115): when every request
settles with a parsed response, each location resolves independently via
resolveLocation; when any of the three rejects, Promise.all rejects and the
catch branch substitutes getDefaultCoordinates for all three. -/
def fetchCoordinates (oc op od : GeocodeOutcome)
    (currentLocation pickupLocation dropoffLocation : String) : RouteCoordinates :=
  match oc, op, od with
  | .response fc, .response fp, .response fd =>
    ⟨resolveLocation fc currentLocation,
     resolveLocation fp pickupLocation,
     resolveLocation fd dropoffLocation⟩
  | _, _, _ =>
    ⟨getDefaultCoordinates currentLocation,
     getDefaultCoordinates pickupLocation,
     getDefaultCoordinates dropoffLocation⟩

/-- After the effect runs, the coordinates state is always populated: both
the success path (line 98) and the catch branch (line 107) call
setCoordinates with a full record. -/
def coordinatesAfterFetch (oc op od : GeocodeOutcome)
    (currentLocation pickupLocation dropoffLocation : String) : Option RouteCoordinates :=
  some (fetchCoordinates oc op od currentLocation pickupLocation dropoffLocation)

/-- What the component renders once loading is done (MapComponent.tsx lines
158-282): the Unavailable branch when the coordinates state is null, else
the full map built from the stored coordinates. -/
inductive MapView where
  | unavailable
  | map (coords : RouteCoordinates)
deriving DecidableEq

/-- The post-loading render branch of MapComponent (lines 158-166). -/
def renderMap : Option RouteCoordinates → MapView
  | none => .unavailable
  | some coords => .map coords

/-- Recognizer for the Unavailable render result. -/
def isUnavailable : MapView → Bool
  | .unavailable => true
  | .map _ => false

/-- A geocode outcome that fails to resolve a coordinate: the request
rejected, or the response carried no feature. -/
def failsToResolve : GeocodeOutcome → Bool
  | .thrown => true
  | .response [] => true
  | .response (_ :: _) => false

/-! ## Segment markers — MapComponent.tsx lines 234-280 -/

/-- TripSegment (App.tsx lines 8-19), restricted to the fields the map and
segment list read. -/
structure TripSegment where
  segment_type : String
  sequence_number : ℕ
  duration_hours : ℚ
  distance_miles : ℚ
  location : String
deriving DecidableEq

/-- The segment types that receive a placeholder marker
(MapComponent.tsx line 237). -/
def placeholderTypes : List String :=
  [("fuel"), ("rest_break"), ("sleeper_berth")]

/-- Marker placement for one segment (MapComponent.tsx lines 236-248): a
listed type is placed by linear interpolation between the current and
dropoff coordinates at fraction (index + 1) / (length + 1); any other type
yields no marker (the branch returns null). -/
def segmentMarker (coords : RouteCoordinates) (segments : List TripSegment)
    (index : ℕ) (segment : TripSegment) : Option Coord :=
  if placeholderTypes.contains segment.segment_type then
    let progress : ℚ := ((index : ℚ) + 1) / ((segments.length : ℚ) + 1)
    let lat := coords.current.1 + (coords.dropoff.1 - coords.current.1) * progress
    let lng := coords.current.2 + (coords.dropoff.2 - coords.current.2) * progress
    some (lat, lng)
  else
    none

/-- The segments.map(...) loop of MapComponent.tsx line 235: each segment is
visited at its index in the complete, unfiltered list. -/
def segmentMarkers (coords : RouteCoordinates) (segments : List TripSegment) :
    List (Option Coord) :=
  segments.enum.map (fun p => segmentMarker coords segments p.1 p.2)

/-! ## DutyGridBuilder — renderELDGrid (App.tsx lines 163-236) -/

/-- LogEntry (App.tsx lines 21-27), the fields the grid reads. -/
structure LogEntry where
  duty_status : String
  start_hour : ℚ
  end_hour : ℚ
  location : String
deriving DecidableEq

/-- The per-cell match test of App.tsx lines 209-212, in source order:
hour at or past the floored start, strictly before the ceiled end, and the
duty status equal to the status of the row. -/
def entryMatches (e : LogEntry) (status : String) (hour : ℕ) : Bool :=
  decide ((hour : ℤ) ≥ e.start_hour.floor) &&
    (decide ((hour : ℤ) < e.end_hour.ceil) && (e.duty_status == status))

/-- The entries.find(...) call of App.tsx lines 208-213: the first entry of
the list matching the cell, if any. -/
def gridCell (entries : List LogEntry) (status : String) (hour : ℕ) :
    Option LogEntry :=
  entries.find? (fun e => entryMatches e status hour)

/-- formatTime (App.tsx lines 133-139): floored hours and rounded minutes,
both zero-padded to two digits. JavaScript Math.round is floor of the value
plus one half. -/
def pad2 (n : ℤ) : String :=
  let s := toString n
  if s.length < 2 then ("0") ++ s else s

/-- formatTime continued: the HH:MM display string of a fractional hour. -/
def formatTime (hour : ℚ) : String :=
  let hours := hour.floor
  let minutes := ((hour - (hours : ℚ)) * 60 + 1/2).floor
  pad2 hours ++ (":") ++ pad2 minutes

/-- The title attribute of one grid cell (App.tsx lines 223-229): the
location and formatted interval of the matched entry, or the empty string. -/
def cellTitle : Option LogEntry → String
  | some e =>
    e.location ++ (" (") ++ formatTime e.start_hour ++ (" - ") ++
      formatTime e.end_hour ++ (")")
  | none => ("")

/-- One rendered cell of the grid: its row status, its hour, and the entry
the find call selected (none meaning the cell is unoccupied). -/
structure GridCellR where
  status : String
  hour : ℕ
  entry : Option LogEntry
deriving DecidableEq

/-- The duty status rows in their fixed order (App.tsx lines 197-202). -/
def dutyStatuses : List String :=
  [("off_duty"), ("sleeper_berth"), ("driving"), ("on_duty_not_driving")]

/-- One status row of the grid: the hours array of App.tsx line 164 is
0..23, and each hour gets exactly one cell (App.tsx lines 207-232). -/
def renderRow (entries : List LogEntry) (status : String) : List GridCellR :=
  (List.range 24).map (fun hour => ⟨status, hour, gridCell entries status hour⟩)

/-- The full grid of renderELDGrid (App.tsx lines 196-234): one row per duty
status, in the fixed order. -/
def renderELDGrid (entries : List LogEntry) : List (List GridCellR) :=
  dutyStatuses.map (fun status => renderRow entries status)

/-! ## LocationSelect — App.tsx appended component (lines 590-903) -/

/-- Location (LocationSelect lines 595-602): coords is the wire-order
[lng, lat] pair carried through unchanged. -/
structure Location where
  id : String
  name : String
  coords : Coord
  locality : Option String
  region : Option String
  country : Option String
deriving DecidableEq

/-- Outcome of one autocomplete fetch as the handler sees it
(LocationSelect lines 645-695): a non-ok HTTP status throws, a body with an
error field reports it, a missing or empty feature list is the empty
result, and otherwise the mapped suggestion list is produced. -/
inductive FetchOutcome where
  | httpError (status : ℕ)
  | apiError (msg : String)
  | emptyFeatures
  | features (suggestions : List Location)
deriving DecidableEq

/-- The LocationSelect state the debounced effect mutates: the displayed
candidate list, the error banner, the loading flag, and a count of network
calls issued so far. The count is bookkeeping of the model: the code keeps
no sequence token of its own. -/
structure SearchState where
  results : List Location
  error : Option String
  loading : Bool
  issuedCalls : ℕ
deriving DecidableEq

/-- The response handler (LocationSelect lines 657-698), run when a fetch
settles: it writes the outcome into the state unconditionally, with no
check that the response belongs to the latest issued call. -/
def applyResponse (s : SearchState) (outcome : FetchOutcome) : SearchState :=
  match outcome with
  | .httpError status =>
    { s with error := some (("Search error: API error: ") ++ toString status),
             results := [], loading := false }
  | .apiError msg =>
    { s with error := some msg, results := [], loading := false }
  | .emptyFeatures =>
    { s with results := [],
             error := some ("No locations found. Try a different search."),
             loading := false }
  | .features suggestions =>
    { s with results := suggestions, error := none, loading := false }

/-- An event of the debounced search pipeline: a debounce timer fires and a
network call is dispatched (LocationSelect lines 639-642, which also set
loading and clear the error), or the call issued as call number token
settles with an outcome. -/
inductive SearchEvent where
  | issue
  | respond (token : ℕ) (outcome : FetchOutcome)
deriving DecidableEq

/-- One step of the pipeline: the respond handler ignores the token of the
settling call. -/
def searchStep (s : SearchState) (ev : SearchEvent) : SearchState :=
  match ev with
  | .issue =>
    { s with loading := true, error := none, issuedCalls := s.issuedCalls + 1 }
  | .respond _ outcome => applyResponse s outcome

/-- A whole event trace, folded left to right in arrival order. -/
def searchRun (s : SearchState) (evs : List SearchEvent) : SearchState :=
  evs.foldl searchStep s

/-- The initial LocationSelect state (lines 621-624). -/
def initialSearchState : SearchState :=
  ⟨[], none, false, 0⟩

/-- The selection-level state of one LocationSelect instance: the query
text and candidate list of the component together with the selected value
the parent stores through onChange (App.tsx lines 68-70). -/
structure SelectState where
  query : String
  results : List Location
  error : Option String
  selection : Option Location
deriving DecidableEq

/-- handleLocationChange (LocationSelect lines 729-741): clear the
candidate list and the error, show the selected name (or empty) in the
input, and store the selection through onChange. -/
def handleLocationChange (s : SelectState) (location : Option Location) :
    SelectState :=
  { s with results := [], error := none,
           query := match location with
                    | some l => l.name
                    | none => (""),
           selection := location }

/-- handleInputChange (LocationSelect lines 748-756): store the new text,
clear the error, and clear the stored selection only when the new text is
truthy (non-empty), the stored name is truthy, and the two differ. -/
def handleInputChange (s : SelectState) (inputValue : String) : SelectState :=
  let cleared :=
    if inputValue != ("") &&
        (match s.selection with
         | some v => v.name != ("") && (inputValue != v.name)
         | none => false) then
      none
    else
      s.selection
  { s with query := inputValue, error := none, selection := cleared }

/-! ## Claim-side formulations and concrete inputs -/

/-- The match rule as the spec words it: the lowercased input contains the
key as a substring, or the key contains the lowercased input. -/
def claimKeyMatches (input key : String) : Bool :=
  strIncludes (toLowerStr input) key || strIncludes key (toLowerStr input)

/-- The fallback contract as the spec words it: the first table entry, in
declaration order, whose key matches wins; otherwise the fixed default. -/
def claimFallback (input : String) : Coord :=
  match cityCoords.find? (fun p => claimKeyMatches input p.1) with
  | some p => p.2
  | none => (39.8283, -98.5795)

/-- The cell-overlap rule as the spec words it: dutyStatus equal to the row
status, and hour at least the floored start and below the ceiled end. -/
def claimOverlap (status : String) (hour : ℕ) (e : LogEntry) : Bool :=
  (e.duty_status == status) &&
    (decide ((hour : ℤ) ≥ e.start_hour.floor) && decide ((hour : ℤ) < e.end_hour.ceil))

/-- The single driving entry of the grid test case: status driving, start 2,
end 5.5 (stored as 11/2). -/
def drivingEntry : LogEntry :=
  ⟨("driving"), 2, mkRat 11 2, ("Chicago, IL")⟩

/-- An entry with bounds far outside the 0..23 day, for the totality claim. -/
def wildEntry : LogEntry :=
  ⟨("driving"), -3, 99, ("x")⟩

/-- First of two overlapping driving entries (covers hours 1..4). -/
def entryA : LogEntry :=
  ⟨("driving"), 1, 5, ("A")⟩

/-- Second of two overlapping driving entries (covers hours 3..5). -/
def entryB : LogEntry :=
  ⟨("driving"), 3, 6, ("B")⟩

/-- The interpolation test coordinates: current (0,0), dropoff (10,10). -/
def coordsDemo : RouteCoordinates :=
  ⟨(0, 0), (3, 4), (10, 10)⟩

/-- Three segments; only the one at index 1 has a placeholder type. -/
def segsDemo : List TripSegment :=
  [⟨("driving"), 1, 1, 0, ("x")⟩, ⟨("fuel"), 2, 1, 0, ("x")⟩,
   ⟨("driving"), 3, 1, 0, ("x")⟩]

/-- Candidate carried by the stale (earlier) autocomplete response. -/
def locStale : Location :=
  ⟨("1"), ("Springfield, MA"), (3, 4), none, none, none⟩

/-- Candidate carried by the fresh (later) autocomplete response. -/
def locFresh : Location :=
  ⟨("2"), ("Fresno, CA"), (5, 6), none, none, none⟩

/-- A selected location with a non-empty display name. -/
def locSelected : Location :=
  ⟨("7"), ("Chicago, IL"), (1, 2), none, none, none⟩

/-! ## Helper lemmas -/

/-- Rotation of a three-fold conjunction of booleans. -/
lemma bool_and_rotate (a b c : Bool) : (a && (b && c)) = (c && (a && b)) := by
  cases a <;> cases b <;> cases c <;> rfl

/-- The source cell test and the claim cell rule agree pointwise. -/
lemma entryMatches_eq_claimOverlap (e : LogEntry) (status : String) (hour : ℕ) :
    entryMatches e status hour = claimOverlap status hour e :=
  bool_and_rotate _ _ _

/-- The early-return loop of getDefaultCoordinates is the first-match search
over the table. -/
lemma findCity_eq_find? (l : List (String × Coord)) (s : String) :
    findCity l s =
      Option.map Prod.snd
        (l.find? (fun p => strIncludes s p.1 || strIncludes p.1 s)) := by
  induction l with
  | nil => rfl
  | cons hd tl ih =>
    obtain ⟨city, coords⟩ := hd
    cases hmatch : (strIncludes s city || strIncludes city s) with
    | true => simp [findCity, List.find?_cons, hmatch]
    | false => simp [findCity, List.find?_cons, hmatch, ih]

/-! ## Claim theorems -/

/-- C7: for every input text, getDefaultCoordinates returns the coordinate
of the first table entry, in declaration order, matching under the
two-sided substring rule on the lowercased input, and the fixed default
when none matches. -/
theorem getDefaultCoordinates_first_match_refinement (t : String) :
    getDefaultCoordinates t = claimFallback t := by
  unfold getDefaultCoordinates claimFallback
  rw [findCity_eq_find?]
  have hp : (fun p : String × Coord =>
      strIncludes (toLowerStr t) p.1 || strIncludes p.1 (toLowerStr t)) =
      (fun p : String × Coord => claimKeyMatches t p.1) := rfl
  rw [hp]
  cases cityCoords.find? (fun p => claimKeyMatches t p.1) <;> rfl

/-- C6: the fallback maps the inputs CHICAGO, chicago-comma-IL and Chicago
all to the fixed Chicago coordinate, and every input matching no table
entry to the fixed continental default; the unmatched input zzz is a
concrete instance of the default case. -/
theorem getDefaultCoordinates_chicago_and_default :
    getDefaultCoordinates ("CHICAGO") = (41.8781, -87.6298)
  ∧ getDefaultCoordinates ("chicago, IL") = (41.8781, -87.6298)
  ∧ getDefaultCoordinates ("Chicago") = (41.8781, -87.6298)
  ∧ getDefaultCoordinates ("zzz") = (39.8283, -98.5795)
  ∧ (∀ t : String, (cityCoords.all fun p => !claimKeyMatches t p.1) = true →
      getDefaultCoordinates t = (39.8283, -98.5795)) := by
  refine ⟨rfl, rfl, rfl, rfl, fun t hall => ?_⟩
  unfold getDefaultCoordinates
  rw [findCity_eq_find?]
  have hnone : cityCoords.find?
      (fun p => strIncludes (toLowerStr t) p.1 || strIncludes p.1 (toLowerStr t)) = none := by
    rw [List.find?_eq_none]
    intro p hp
    have := (List.all_eq_true.mp hall) p hp
    simpa [claimKeyMatches] using this
  rw [hnone]
  rfl

/-- C1 (amended): once the fetch effect completes, the component never
renders the Unavailable branch: both the success path and the catch branch
store a fully populated coordinates record, substituting fallback
coordinates for locations that failed to resolve, and a full map is
rendered. -/
theorem mapRender_never_unavailable_after_fetch (oc op od : GeocodeOutcome)
    (lc lp ld : String) :
    isUnavailable (renderMap (coordinatesAfterFetch oc op od lc lp ld)) = false :=
  rfl

/-- C1 counterexample: with the pickup geocode response carrying no feature
(a failed resolution) and the other two resolving, the component still
renders a map, not the Unavailable result. -/
theorem failed_resolution_still_renders_map :
    failsToResolve (GeocodeOutcome.response []) = true
  ∧ failsToResolve (GeocodeOutcome.response [((-87.6298 : ℚ), 41.8781)]) = false
  ∧ isUnavailable (renderMap (coordinatesAfterFetch
        (.response [((-87.6298 : ℚ), 41.8781)]) (.response [])
        (.response [((-104.9903 : ℚ), 39.7392)])
        ("Chicago") ("Springfield") ("Denver"))) = false :=
  ⟨rfl, rfl, rfl⟩

/-- C5 (amended): among completed responses, resolution is per-location: a
location whose response has no feature is substituted via the fallback
while the others keep their resolved coordinates; but when any of the three
requests throws, the catch branch substitutes the fallback for all three
locations, discarding the successfully resolved ones. -/
theorem fetchCoordinates_fallback_policy :
    (∀ (fp fd : List Coord) (lc lp ld : String),
        fetchCoordinates (.response []) (.response fp) (.response fd) lc lp ld =
          ⟨getDefaultCoordinates lc, resolveLocation fp lp, resolveLocation fd ld⟩)
  ∧ (∀ (fc fd : List Coord) (lc lp ld : String),
        fetchCoordinates (.response fc) (.response []) (.response fd) lc lp ld =
          ⟨resolveLocation fc lc, getDefaultCoordinates lp, resolveLocation fd ld⟩)
  ∧ (∀ (fc fp : List Coord) (lc lp ld : String),
        fetchCoordinates (.response fc) (.response fp) (.response []) lc lp ld =
          ⟨resolveLocation fc lc, resolveLocation fp lp, getDefaultCoordinates ld⟩)
  ∧ (∀ (op od : GeocodeOutcome) (lc lp ld : String),
        fetchCoordinates .thrown op od lc lp ld =
          ⟨getDefaultCoordinates lc, getDefaultCoordinates lp, getDefaultCoordinates ld⟩)
  ∧ (∀ (oc od : GeocodeOutcome) (lc lp ld : String),
        fetchCoordinates oc .thrown od lc lp ld =
          ⟨getDefaultCoordinates lc, getDefaultCoordinates lp, getDefaultCoordinates ld⟩)
  ∧ (∀ (oc op : GeocodeOutcome) (lc lp ld : String),
        fetchCoordinates oc op .thrown lc lp ld =
          ⟨getDefaultCoordinates lc, getDefaultCoordinates lp, getDefaultCoordinates ld⟩) := by
  refine ⟨fun fp fd lc lp ld => rfl, fun fc fd lc lp ld => rfl,
    fun fc fp lc lp ld => rfl, fun op od lc lp ld => ?_,
    fun oc od lc lp ld => ?_, fun oc op lc lp ld => ?_⟩
  · cases op <;> cases od <;> rfl
  · cases oc <;> cases od <;> rfl
  · cases oc <;> cases op <;> rfl

/-- C5 counterexample: the dropoff request throws while the current
location had already resolved to latitude 40, longitude -90; the catch
branch replaces that resolved coordinate with the fallback default, so the
failure of one location discards the result of another. -/
theorem thrown_failure_replaces_resolved_partner :
    failsToResolve GeocodeOutcome.thrown = true
  ∧ resolveLocation [((-90 : ℚ), 40)] ("nowhere") = (40, -90)
  ∧ (fetchCoordinates (.response [((-90 : ℚ), 40)])
        (.response [((-90 : ℚ), 40)]) .thrown
        ("nowhere") ("nowhere") ("nowhere")).current = (39.8283, -98.5795)
  ∧ (decide ((40 : ℚ) = 39.8283)) = false := by
  refine ⟨rfl, rfl, rfl, ?_⟩
  simp only [decide_eq_false_iff_not]
  norm_num

/-- C4: every segment of the complete, unfiltered list whose type is fuel,
rest_break or sleeper_berth is placed at
current + (dropoff - current) * (i+1)/(N+1) componentwise, where i is its
index in the complete list and N the total count; other types get no
placeholder marker; and with current (0,0), dropoff (10,10) and three
segments, the segment at index 1 lands at (5,5). -/
theorem segmentMarkers_interpolation_spec :
    (∀ (coords : RouteCoordinates) (segments : List TripSegment) (i : ℕ)
        (seg : TripSegment),
        segments[i]? = some seg →
        (segmentMarkers coords segments)[i]? = some (
          if placeholderTypes.contains seg.segment_type then
            some (coords.current.1 + (coords.dropoff.1 - coords.current.1) *
                    (((i : ℚ) + 1) / ((segments.length : ℚ) + 1)),
                  coords.current.2 + (coords.dropoff.2 - coords.current.2) *
                    (((i : ℚ) + 1) / ((segments.length : ℚ) + 1)))
          else none))
  ∧ segmentMarkers coordsDemo segsDemo = [none, some (5, 5), none] := by
  constructor
  · intro coords segments i seg h
    simp only [segmentMarkers, List.getElem?_map, List.getElem?_enum, h,
      Option.map_some']
    rfl
  · simp [segmentMarkers, segmentMarker, List.enum, List.enumFrom, coordsDemo,
      segsDemo, placeholderTypes]
    norm_num

/-- C3: a grid cell is occupied exactly when some entry has the row status
and overlaps the hour under the floor/ceil rule, the selected entry being
the first such entry in list order; and on the single driving entry from
hour 2 to hour 5.5, the driving row is occupied exactly at hours 2..5
(hour 6 unoccupied) and the three other rows are fully unoccupied. -/
theorem gridCell_first_match_spec :
    (∀ (entries : List LogEntry) (status : String) (hour : ℕ),
        gridCell entries status hour =
          entries.find? (fun e => claimOverlap status hour e))
  ∧ (∀ (entries : List LogEntry) (status : String) (hour : ℕ),
        ((gridCell entries status hour).isSome = true ↔
          ∃ e ∈ entries, claimOverlap status hour e = true))
  ∧ drivingEntry.duty_status = ("driving")
  ∧ drivingEntry.start_hour = 2
  ∧ drivingEntry.end_hour = (5.5 : ℚ)
  ∧ (renderRow [drivingEntry] ("driving")).map (fun c => c.entry.isSome) =
      [false, false, true, true, true, true, false, false, false, false, false,
       false, false, false, false, false, false, false, false, false, false,
       false, false, false]
  ∧ gridCell [drivingEntry] ("driving") 6 = none
  ∧ (renderRow [drivingEntry] ("off_duty")).all (fun c => c.entry.isNone) = true
  ∧ (renderRow [drivingEntry] ("sleeper_berth")).all (fun c => c.entry.isNone) = true
  ∧ (renderRow [drivingEntry] ("on_duty_not_driving")).all
      (fun c => c.entry.isNone) = true := by
  have hp : ∀ (status : String) (hour : ℕ),
      (fun e => entryMatches e status hour) =
        (fun e => claimOverlap status hour e) :=
    fun status hour => funext fun e => entryMatches_eq_claimOverlap e status hour
  refine ⟨fun entries status hour => ?_, fun entries status hour => ?_,
    rfl, rfl, ?_, by decide, by decide, by decide, by decide, by decide⟩
  · simp only [gridCell, hp]
  · simp only [gridCell, hp, List.find?_isSome]
  · norm_num [drivingEntry, mkRat, Rat.normalize]

/-- C10: the grid builder is total over arbitrary numeric entry bounds: for
every entry list the grid has exactly 4 status rows of 24 hour cells whose
hours are exactly 0..23, so interval parts outside the day produce no cell;
an entry running from -3 to 99 still renders and simply fills its whole
row. -/
theorem renderELDGrid_total_shape (entries : List LogEntry) :
    (renderELDGrid entries).length = 4
  ∧ (renderELDGrid entries).map List.length = [24, 24, 24, 24]
  ∧ (renderELDGrid entries).map (fun row => row.map GridCellR.hour) =
      List.replicate 4 (List.range 24)
  ∧ (renderRow [wildEntry] ("driving")).all (fun c => c.entry.isSome) = true :=
  ⟨rfl, rfl, rfl, by decide⟩

/-- C8: in an entry list holding two overlapping entries of the same duty
status, an hour covered by both (with no earlier match) is occupied exactly
once in that status row, the selected entry and hence the tooltip payload
coming from the one that appears first in input order. -/
theorem gridCell_overlap_first_entry (l1 l2 l3 : List LogEntry)
    (e1 e2 : LogEntry) (status : String) (h : ℕ) (hh : h < 24)
    (h1 : entryMatches e1 status h = true)
    (h2 : entryMatches e2 status h = true)
    (hfirst : ∀ e ∈ l1, entryMatches e status h = false) :
    gridCell (l1 ++ e1 :: l2 ++ e2 :: l3) status h = some e1
  ∧ (renderRow (l1 ++ e1 :: l2 ++ e2 :: l3) status).countP
      (fun c => (c.hour == h) && c.entry.isSome) = 1
  ∧ cellTitle (gridCell (l1 ++ e1 :: l2 ++ e2 :: l3) status h) =
      cellTitle (some e1) := by
  have hcell : gridCell (l1 ++ e1 :: l2 ++ e2 :: l3) status h = some e1 := by
    unfold gridCell
    rw [List.find?_append, List.find?_append]
    have hnone : l1.find? (fun e => entryMatches e status h) = none :=
      List.find?_eq_none.mpr (fun e he => by simp [hfirst e he])
    rw [hnone]
    simp [List.find?_cons, h1]
  refine ⟨hcell, ?_, by rw [hcell]⟩
  unfold renderRow
  rw [List.countP_map]
  have hq : ∀ x ∈ List.range 24,
      (((fun c : GridCellR => (c.hour == h) && c.entry.isSome) ∘
        (fun hour => (⟨status, hour,
          gridCell (l1 ++ e1 :: l2 ++ e2 :: l3) status hour⟩ : GridCellR))) x
        = true ↔ (x == h) = true) := by
    intro x hx
    simp only [Function.comp]
    constructor
    · intro hand
      cases hxh : (x == h) with
      | true => rfl
      | false =>
        rw [hxh] at hand
        simp at hand
    · intro hxh
      have hxeq : x = h := by simpa using hxh
      subst hxeq
      simp only [beq_self_eq_true, Bool.true_and]
      rw [hcell]
      rfl
  rw [List.countP_congr hq]
  have hcount : List.count h (List.range 24) = 1 :=
    List.count_eq_one_of_mem (List.nodup_range 24) (List.mem_range.mpr hh)
  simpa [List.count] using hcount

/-- C8 witness: the two overlapping driving entries 1..5 and 3..6 share
hour 3; the cell is occupied once and carries the first entry. -/
theorem gridCell_overlap_first_entry_witness :
    gridCell [entryA, entryB] ("driving") 3 = some entryA
  ∧ (renderRow [entryA, entryB] ("driving")).countP
      (fun c => (c.hour == 3) && c.entry.isSome) = 1
  ∧ cellTitle (gridCell [entryA, entryB] ("driving") 3) =
      cellTitle (some entryA) := by
  simpa using gridCell_overlap_first_entry [] [] [] entryA entryB ("driving") 3
    (by decide) (by decide) (by decide) (by simp)

/-- C2 (amended): the response handler applies every arriving response
unconditionally: the code carries no sequence token, so even a response
whose issue position is not the latest one overwrites the candidate list —
the most recently arrived response wins, not the most recently issued
query. -/
theorem stale_response_still_applied (s : SearchState) (token : ℕ)
    (suggestions : List Location)
    (_hstale : (token + 1 == s.issuedCalls) = false) :
    (searchStep s (.respond token (.features suggestions))).results =
      suggestions :=
  rfl

/-- C2 witness: after two calls were issued and call 1 already applied, the
stale response of call 0 is still applied. -/
theorem stale_response_still_applied_witness :
    (searchStep (searchRun initialSearchState
        [.issue, .issue, .respond 1 (.features [locFresh])])
      (.respond 0 (.features [locStale]))).results = [locStale] :=
  stale_response_still_applied _ 0 [locStale] (by decide)

/-- C2 counterexample: calls 0 and 1 are issued, the response of call 1 is
applied, then the stale response of call 0 arrives and overwrites the
displayed candidates with a different list — contradicting the claim that
a stale response is never applied. -/
theorem stale_response_overwrites_newer :
    (searchRun initialSearchState
        [.issue, .issue, .respond 1 (.features [locFresh])]).results = [locFresh]
  ∧ ((0 : ℕ) + 1 == (searchRun initialSearchState
        [.issue, .issue, .respond 1 (.features [locFresh])]).issuedCalls) = false
  ∧ (searchRun initialSearchState
        [.issue, .issue, .respond 1 (.features [locFresh]),
         .respond 0 (.features [locStale])]).results = [locStale]
  ∧ (locStale == locFresh) = false :=
  ⟨rfl, by decide, rfl, by decide⟩

/-- C9 (amended): selecting a candidate clears the candidate list, shows
the selected name and stores the selection; and every subsequent non-empty
text edit that differs from the (non-empty) stored display name clears the
stored selection. An edit to the empty string is excluded: the handler
requires a truthy input value. -/
theorem selection_cleared_on_nonempty_divergent_edit (s : SelectState)
    (loc : Location) (t : String)
    (hsel : s.selection = some loc)
    (hname : (loc.name != ("")) = true)
    (ht : (t != ("")) = true)
    (hdiff : (t != loc.name) = true) :
    (handleLocationChange s (some loc)).results = []
  ∧ (handleLocationChange s (some loc)).selection = some loc
  ∧ (handleLocationChange s (some loc)).query = loc.name
  ∧ (handleInputChange s t).selection = none := by
  refine ⟨rfl, rfl, rfl, ?_⟩
  simp [handleInputChange, hsel, hname, ht, hdiff]

/-- C9 witness: after selecting the Chicago location, the edit Denver is
non-empty and differs from the stored name, so the selection is cleared. -/
theorem selection_cleared_on_nonempty_divergent_edit_witness :
    (handleLocationChange (handleLocationChange ⟨(""), [], none, none⟩
        (some locSelected)) (some locSelected)).results = []
  ∧ (handleLocationChange (handleLocationChange ⟨(""), [], none, none⟩
        (some locSelected)) (some locSelected)).selection = some locSelected
  ∧ (handleLocationChange (handleLocationChange ⟨(""), [], none, none⟩
        (some locSelected)) (some locSelected)).query = locSelected.name
  ∧ (handleInputChange (handleLocationChange ⟨(""), [], none, none⟩
        (some locSelected)) ("Denver")).selection = none :=
  selection_cleared_on_nonempty_divergent_edit _ locSelected ("Denver") rfl
    (by decide) (by decide) (by decide)

/-- C9 counterexample: after selecting a location named Chicago, IL,
editing the text to the empty string differs from the stored display name
yet leaves the selection stored, because the clearing branch demands a
truthy (non-empty) input value. -/
theorem empty_edit_keeps_selection :
    (handleInputChange
        (handleLocationChange ⟨(""), [], none, none⟩ (some locSelected))
        ("")).selection = some locSelected
  ∧ ((("") == locSelected.name) = false) :=
  ⟨rfl, by decide⟩

end CarTracker
